import Mathlib

/-!
Verification of the bvzconfig repository: a Lean embedding of `Config`
(src/bvzconfig.py) and `ConfigError` (src/bvzconfigerror.py), together with a
model of the in-memory state of the external `configparser` objects the class
wraps, and theorems settling the specification's claims about them.
-/

set_option autoImplicit false

namespace Bvzconfig

/-- `ConfigError` from bvzconfigerror.py: a descriptive message plus an integer
status code whose constructor default is 0. -/
structure ConfigError where
  message : String
  code : Int := 0
  deriving Repr, DecidableEq

/-- The signaled failures the operations of `Config` can surface: the Python
exceptions raised by the wrapped `configparser` calls and by the accessor code,
plus the repository's own `ConfigError`. -/
inductive PyErr where
  | noSectionError
  | noOptionError
  | duplicateSectionError
  | duplicateOptionError
  | missingSectionHeaderError
  | parsingError
  | valueError
  | attributeError
  | typeError
  | configError (e : ConfigError)
  deriving Repr, DecidableEq

/-- Modelled from the spec: the in-memory state of one external
`configparser.ConfigParser` object as the spec's data model describes it — an
ordered mapping from section name to an ordered mapping from option name to a
value that is either a string or undefined (a key written with no `=value`).
The special DEFAULT section and value interpolation are not used by this
repository and lie outside the model. -/
structure ConfigObj where
  sections : List (String × List (String × Option String))
  deriving Repr, DecidableEq

/-- First value bound to key `k` in an ordered association list, if any. -/
def assocLookup : List (String × Option String) → String → Option (Option String)
  | [], _ => none
  | kv :: rest, k => if kv.1 == k then some kv.2 else assocLookup rest k

/-- Modelled from the spec: assignment into an ordered mapping — an existing
key keeps its position and takes the new value, a new key is appended at the
end (Python dict assignment). -/
def setAssoc : List (String × Option String) → String → Option String →
    List (String × Option String)
  | [], k, v => [(k, v)]
  | kv :: rest, k, v =>
    if kv.1 == k then (kv.1, v) :: rest else kv :: setAssoc rest k v

/-- First section entry named `sec` in the ordered section list, if any. -/
def sectionsLookup : List (String × List (String × Option String)) → String →
    Option (List (String × Option String))
  | [], _ => none
  | s :: rest, sec => if s.1 == sec then some s.2 else sectionsLookup rest sec

/-- Update the options of the section named `sec` in place (no effect when the
section is absent). -/
def setSections : List (String × List (String × Option String)) → String → String →
    Option String → List (String × List (String × Option String))
  | [], _, _, _ => []
  | s :: rest, sec, opt, v =>
    if s.1 == sec then (s.1, setAssoc s.2 opt v) :: rest
    else s :: setSections rest sec opt v

/-- The ordered list of section names of one view. -/
def ConfigObj.sectionNames (c : ConfigObj) : List String :=
  c.sections.map (fun s => s.1)

/-- The ordered option list of a section, if the section exists. -/
def ConfigObj.getSection (c : ConfigObj) (sec : String) :
    Option (List (String × Option String)) :=
  sectionsLookup c.sections sec

/-- Modelled from the spec: `ConfigParser.has_section`. -/
def ConfigObj.has_section (c : ConfigObj) (sec : String) : Bool :=
  (c.getSection sec).isSome

/-- Combined lookup: `none` when the section or the option is absent, otherwise
`some` of the option's (possibly undefined) value. -/
def ConfigObj.lookupOpt (c : ConfigObj) (sec opt : String) : Option (Option String) :=
  (c.getSection sec).bind (fun l => assocLookup l opt)

/-- Modelled from the spec: `ConfigParser.get` — NoSectionError / NoOptionError
when the section / option is absent, otherwise the stored value (undefined for
a key written with no value). -/
def ConfigObj.get (c : ConfigObj) (sec opt : String) : Except PyErr (Option String) :=
  match c.getSection sec with
  | none => .error .noSectionError
  | some l =>
    match assocLookup l opt with
    | none => .error .noOptionError
    | some v => .ok v

/-- Modelled from the spec: `ConfigParser.has_option` — NoSectionError when the
section is absent, otherwise whether the option exists in it. -/
def ConfigObj.has_option (c : ConfigObj) (sec opt : String) : Except PyErr Bool :=
  match c.getSection sec with
  | none => .error .noSectionError
  | some l => .ok (assocLookup l opt).isSome

/-- In-place update of the options of section `sec` (no effect when the section
is absent); shared by the reader and by `set`. -/
def ConfigObj.setRaw (c : ConfigObj) (sec opt : String) (v : Option String) : ConfigObj :=
  ⟨setSections c.sections sec opt v⟩

/-- Modelled from the spec: `ConfigParser.set` — NoSectionError when the section
is absent, otherwise stores the string value for the option. -/
def ConfigObj.set (c : ConfigObj) (sec opt v : String) : Except PyErr ConfigObj :=
  if c.has_section sec then .ok (c.setRaw sec opt (some v)) else .error .noSectionError

/-- Modelled from the spec: `ConfigParser.remove_section` (idempotent when the
section is absent). -/
def ConfigObj.remove_section (c : ConfigObj) (sec : String) : ConfigObj :=
  ⟨c.sections.filter (fun s => s.1 != sec)⟩

/-- Modelled from the spec: `ConfigParser.add_section` — DuplicateSectionError
when the section already exists, otherwise appends an empty section. -/
def ConfigObj.add_section (c : ConfigObj) (sec : String) : Except PyErr ConfigObj :=
  if c.has_section sec then .error .duplicateSectionError
  else .ok ⟨c.sections ++ [(sec, [])]⟩

/-- ASCII uppercasing of one character, the effect of Python `str.upper` on
the ASCII option values this model covers. -/
def pyCharUpper (ch : Char) : Char :=
  if 97 ≤ ch.toNat ∧ ch.toNat ≤ 122 then Char.ofNat (ch.toNat - 32) else ch

/-- Python whitespace, as stripped from lines, keys and values. -/
def pyIsSpace (ch : Char) : Bool :=
  (ch.toNat == 32) || (ch.toNat == 9) || (ch.toNat == 10) ||
    (ch.toNat == 13) || (ch.toNat == 11) || (ch.toNat == 12)

/-- Python `str.strip`: drop surrounding whitespace. -/
def pyStrip (s : String) : String :=
  ⟨((s.data.dropWhile pyIsSpace).reverse.dropWhile pyIsSpace).reverse⟩

/-- Whether the first character of `s` is `ch`. -/
def headCharIs (s : String) (ch : Char) : Bool :=
  match s.data with
  | [] => false
  | a :: _ => a == ch

/-- Modelled from the spec: a bracketed section-header line, `[name]` after
stripping surrounding whitespace; recognized identically in both views. -/
def parseSectionHeader (v : String) : Option String :=
  if headCharIs v '[' && (v.data.getLast? == some ']') && decide (3 ≤ v.data.length) then
    some ⟨(v.data.drop 1).dropLast⟩
  else none

/-- Modelled from the spec: interpretation of one option line. The delimited
view splits at the first `=` into a stripped key and a stripped string value
(a line with no `=` is a key with an undefined value, `allow_no_value`); the
undelimited view takes the whole line as the key with an undefined value. -/
def parseOptionLine (delimited : Bool) (v : String) : String × Option String :=
  if delimited && v.data.contains '=' then
    (pyStrip ⟨v.data.takeWhile (fun ch => ch != '=')⟩,
      some (pyStrip ⟨(v.data.dropWhile (fun ch => ch != '=')).drop 1⟩))
  else (v, none)

/-- Modelled from the spec: one pass of the external INI reader over the file's
lines. Both views skip blank lines and `;`/`#` full-line comments, recognize
the same bracketed section headers, and differ only in how an option line is
split. An empty key, a duplicate section or option (strict mode), or an option
line before any header is a read error. Multi-line continuation values are
outside the model. -/
def readLoop (delimited : Bool) (cursect : Option String) (acc : ConfigObj) :
    List String → Except PyErr ConfigObj
  | [] => .ok acc
  | line :: rest =>
    let v := pyStrip line
    if v = "" then readLoop delimited cursect acc rest
    else if headCharIs v ';' || headCharIs v '#' then readLoop delimited cursect acc rest
    else
      match parseSectionHeader v with
      | some name =>
        if acc.has_section name then .error .duplicateSectionError
        else readLoop delimited (some name) ⟨acc.sections ++ [(name, [])]⟩ rest
      | none =>
        match cursect with
        | none => .error .missingSectionHeaderError
        | some sec =>
          let kv := parseOptionLine delimited v
          if kv.1 = "" then .error .parsingError
          else if (acc.lookupOpt sec kv.1).isSome then .error .duplicateOptionError
          else readLoop delimited cursect (acc.setRaw sec kv.1 kv.2) rest

/-- Modelled from the spec: parse a file's lines into one view. -/
def readLines (delimited : Bool) (lines : List String) : Except PyErr ConfigObj :=
  readLoop delimited none ⟨[]⟩ lines

/-- Modelled from the spec: the pieces of the host filesystem the constructor
consults — whether a path references an existing file (`os.path.exists`), the
resolved absolute form of a path (`os.path.abspath`), and the lines of the
file's contents. -/
structure FileSystem where
  pathExists : String → Bool
  absPath : String → String
  contents : String → List String

/-- The `Config` object of bvzconfig.py: the backing path and the two parallel
parses of the file. -/
structure Config where
  config_p : String
  delimited : ConfigObj
  undelimited : ConfigObj
  deriving Repr, DecidableEq

/-- `Config.__init__`: raises a `ConfigError` with code 2 whose message names
the resolved absolute path when the file does not exist; otherwise reads the
file into the delimited and the undelimited views. -/
def Config.init (fs : FileSystem) (config_p : String) : Except PyErr Config :=
  if fs.pathExists config_p = false then
    .error (.configError { message := "Cannot locate config file: " ++ fs.absPath config_p, code := 2 })
  else
    match readLines true (fs.contents config_p), readLines false (fs.contents config_p) with
    | .ok d, .ok u => .ok ⟨config_p, d, u⟩
    | .error e, _ => .error e
    | _, .error e => .error e

/-- The failure descriptor `Config.validate` returns: the section, the option
or `none`, and the expected type name or `none`. -/
abbrev Fail := String × Option String × Option String

/-- Python `str.upper` restricted to ASCII, as applied to option values. -/
def pyUpper (s : String) : String := ⟨s.data.map pyCharUpper⟩

/-- An ASCII decimal digit. -/
def pyIsDigit (ch : Char) : Bool :=
  decide (48 ≤ ch.toNat) && decide (ch.toNat ≤ 57)

/-- Modelled from the spec: whether the Python `int()` builtin accepts the
string — "parseable as a base-10 integer": optional surrounding whitespace,
an optional sign, then a non-empty run of digits. -/
def pyIntParseable (s : String) : Bool :=
  let t := (pyStrip s).data
  let t2 :=
    match t with
    | [] => t
    | ch :: rest => if ch == '+' || ch == '-' then rest else t
  (!t2.isEmpty) && t2.all pyIsDigit

/-- The bool branch of `Config.validate`:
`get(section, setting).upper() in ["TRUE", "FALSE"]`. An undefined value has no
`upper` method, so the call raises an AttributeError. -/
def Config.boolCheck (c : Config) (sec setting : String) : Except PyErr (Option Fail) :=
  match c.delimited.get sec setting with
  | .error e => .error e
  | .ok none => .error .attributeError
  | .ok (some v) =>
    if pyUpper v == "TRUE" || pyUpper v == "FALSE" then .ok none
    else .ok (some (sec, some setting, some "boolean"))

/-- The int branch of `Config.validate`: `int(get(section, setting))` with only
ValueError caught. An undefined value passed to `int` raises a TypeError, which
propagates uncaught. -/
def Config.intCheck (c : Config) (sec setting : String) : Except PyErr (Option Fail) :=
  match c.delimited.get sec setting with
  | .error e => .error e
  | .ok none => .error .typeError
  | .ok (some v) =>
    if pyIntParseable v then .ok none else .ok (some (sec, some setting, some "integer"))

/-- The inner loop of `Config.validate` over one section's required
(name, type) pairs, in order. A pair whose name is the empty string is skipped
by the `if setting:` truthiness test. -/
def Config.checkItems (c : Config) (sec : String) :
    List (String × String) → Except PyErr (Option Fail)
  | [] => .ok none
  | (setting, settingType) :: rest =>
    if setting = "" then c.checkItems sec rest
    else
      match c.delimited.has_option sec setting with
      | .error e => .error e
      | .ok false => .ok (some (sec, some setting, none))
      | .ok true =>
        match (if settingType == "bool" then c.boolCheck sec setting else .ok none) with
        | .error e => .error e
        | .ok (some f) => .ok (some f)
        | .ok none =>
          match (if settingType == "int" then c.intCheck sec setting else .ok none) with
          | .error e => .error e
          | .ok (some f) => .ok (some f)
          | .ok none => c.checkItems sec rest

/-- `Config.validate`: walks the required sections in caller order; a missing
section, then that section's required options in order. Returns `some`
descriptor at the first failure, `none` on success. -/
def Config.validate (c : Config) :
    List (String × Option (List (String × String))) → Except PyErr (Option Fail)
  | [] => .ok none
  | (sec, reqs) :: rest =>
    if c.delimited.has_section sec = false then .ok (some (sec, none, none))
    else
      match reqs with
      | none => c.validate rest
      | some l =>
        match c.checkItems sec l with
        | .error e => .error e
        | .ok (some f) => .ok (some f)
        | .ok none => c.validate rest

/-- `Config._get_item` / `Config.get_string`: the delimited view's value, with
an undefined value normalized to the empty string. -/
def Config.get_string (c : Config) (sec item : String) : Except PyErr String :=
  match c.delimited.get sec item with
  | .error e => .error e
  | .ok none => .ok ""
  | .ok (some v) => .ok v

/-- `Config.get_boolean`: `value.upper()` against the true-alias and
false-alias lists; any other string raises a ValueError, and an undefined value
raises an AttributeError from calling `upper` on it. -/
def Config.get_boolean (c : Config) (sec item : String) : Except PyErr Bool :=
  match c.delimited.get sec item with
  | .error e => .error e
  | .ok none => .error .attributeError
  | .ok (some v) =>
    if ["TRUE", "T", "YES", "Y", "ON", "1"].contains (pyUpper v) then .ok true
    else if ["FALSE", "F", "NO", "N", "OFF", "0"].contains (pyUpper v) then .ok false
    else .error .valueError

/-- `Config.merge_section`: for each item in order, set the option in the
delimited view and then in the undelimited view via `ConfigParser.set` (the
item values arrive already coerced to strings). -/
def Config.merge_section (c : Config) (sec : String) :
    List (String × String) → Except PyErr Config
  | [] => .ok c
  | (k, v) :: rest =>
    match c.delimited.set sec k v with
    | .error e => .error e
    | .ok d =>
      match c.undelimited.set sec k v with
      | .error e => .error e
      | .ok u => Config.merge_section ⟨c.config_p, d, u⟩ sec rest

/-- `Config.replace_section`: remove the section from both views, re-create it
empty in both, then merge the items into it. -/
def Config.replace_section (c : Config) (sec : String) (items : List (String × String)) :
    Except PyErr Config :=
  let c1 : Config :=
    ⟨c.config_p, c.delimited.remove_section sec, c.undelimited.remove_section sec⟩
  match c1.delimited.add_section sec with
  | .error e => .error e
  | .ok d =>
    match c1.undelimited.add_section sec with
    | .error e => .error e
    | .ok u => Config.merge_section ⟨c.config_p, d, u⟩ sec items

/-! Lemmas about the ordered-mapping helpers. -/

theorem assocLookup_setAssoc (l : List (String × Option String)) (k q : String)
    (v : Option String) :
    assocLookup (setAssoc l k v) q = if q = k then some v else assocLookup l q := by
  induction l with
  | nil =>
    by_cases hq : q = k
    · simp [setAssoc, assocLookup, hq]
    · have hk : k ≠ q := fun h => hq h.symm
      simp [setAssoc, assocLookup, hq, hk]
  | cons kv t ih =>
    by_cases hk : kv.1 = k <;> by_cases hq : q = k <;> by_cases h2 : kv.1 = q <;>
      simp_all [setAssoc, assocLookup, beq_iff_eq]

theorem sectionsLookup_setSections (ss : List (String × List (String × Option String)))
    (sec opt : String) (v : Option String) (t : String) :
    sectionsLookup (setSections ss sec opt v) t =
      if t = sec then (sectionsLookup ss sec).map (fun l => setAssoc l opt v)
      else sectionsLookup ss t := by
  induction ss with
  | nil =>
    by_cases ht : t = sec <;> simp [setSections, sectionsLookup, ht]
  | cons s rest ih =>
    by_cases hs : s.1 = sec <;> by_cases ht : t = sec <;> by_cases h2 : s.1 = t <;>
      simp_all [setSections, sectionsLookup, beq_iff_eq]

theorem map_fst_setSections (ss : List (String × List (String × Option String)))
    (sec opt : String) (v : Option String) :
    (setSections ss sec opt v).map (fun s => s.1) = ss.map (fun s => s.1) := by
  induction ss with
  | nil => rfl
  | cons s rest ih =>
    by_cases hs : s.1 = sec <;> simp [setSections, hs, ih]

theorem sectionsLookup_append_single (ss : List (String × List (String × Option String)))
    (sec : String) (l : List (String × Option String)) (t : String) :
    sectionsLookup (ss ++ [(sec, l)]) t =
      match sectionsLookup ss t with
      | some x => some x
      | none => if t = sec then some l else none := by
  induction ss with
  | nil =>
    by_cases ht : t = sec
    · simp [sectionsLookup, ht]
    · have h2 : sec ≠ t := fun h => ht h.symm
      simp [sectionsLookup, ht, h2]
  | cons s rest ih =>
    by_cases h2 : s.1 = t <;> simp_all [sectionsLookup, beq_iff_eq]

theorem sectionsLookup_filter_ne (ss : List (String × List (String × Option String)))
    (sec t : String) :
    sectionsLookup (ss.filter (fun s => s.1 != sec)) t =
      if t = sec then none else sectionsLookup ss t := by
  induction ss with
  | nil => by_cases ht : t = sec <;> simp [sectionsLookup, ht]
  | cons s rest ih =>
    by_cases hs : s.1 = sec <;> by_cases ht : t = sec <;> by_cases h2 : s.1 = t <;>
      simp_all [sectionsLookup, List.filter_cons, beq_iff_eq, bne_iff_ne]

/-! Lemmas about the `ConfigObj` operations. -/

theorem ConfigObj.getSection_setRaw (c : ConfigObj) (sec opt : String)
    (v : Option String) (t : String) :
    (c.setRaw sec opt v).getSection t =
      if t = sec then (c.getSection sec).map (fun l => setAssoc l opt v)
      else c.getSection t :=
  sectionsLookup_setSections c.sections sec opt v t

theorem ConfigObj.sectionNames_setRaw (c : ConfigObj) (sec opt : String)
    (v : Option String) :
    (c.setRaw sec opt v).sectionNames = c.sectionNames :=
  map_fst_setSections c.sections sec opt v

theorem ConfigObj.has_section_setRaw (c : ConfigObj) (sec opt : String)
    (v : Option String) (t : String) :
    (c.setRaw sec opt v).has_section t = c.has_section t := by
  unfold ConfigObj.has_section
  rw [ConfigObj.getSection_setRaw]
  by_cases ht : t = sec
  · cases hs : c.getSection sec <;> simp [ht, hs]
  · simp [ht]

theorem ConfigObj.lookupOpt_setRaw_self (c : ConfigObj) (sec opt : String)
    (v : Option String) (q : String) (h : c.has_section sec = true) :
    (c.setRaw sec opt v).lookupOpt sec q =
      if q = opt then some v else c.lookupOpt sec q := by
  unfold ConfigObj.lookupOpt
  rw [ConfigObj.getSection_setRaw]
  unfold ConfigObj.has_section at h
  obtain ⟨l, hl⟩ := Option.isSome_iff_exists.mp h
  simp [hl, assocLookup_setAssoc]

theorem ConfigObj.lookupOpt_setRaw_other (c : ConfigObj) (sec opt : String)
    (v : Option String) (t q : String) (h : t ≠ sec) :
    (c.setRaw sec opt v).lookupOpt t q = c.lookupOpt t q := by
  unfold ConfigObj.lookupOpt
  rw [ConfigObj.getSection_setRaw]
  simp [h]

theorem ConfigObj.getSection_remove_section (c : ConfigObj) (sec t : String) :
    (c.remove_section sec).getSection t = if t = sec then none else c.getSection t :=
  sectionsLookup_filter_ne c.sections sec t

theorem ConfigObj.add_section_ok (c : ConfigObj) (sec : String)
    (h : c.has_section sec = false) :
    c.add_section sec = .ok ⟨c.sections ++ [(sec, [])]⟩ := by
  unfold ConfigObj.add_section
  simp [h]

theorem ConfigObj.get_ok_iff (c : ConfigObj) (sec opt : String) (v : Option String) :
    c.get sec opt = .ok v ↔ c.lookupOpt sec opt = some v := by
  unfold ConfigObj.get ConfigObj.lookupOpt
  cases hs : c.getSection sec with
  | none => simp
  | some l =>
    simp only [Option.some_bind]
    cases ha : assocLookup l opt <;> simp [ha]

theorem ConfigObj.get_noSection (c : ConfigObj) (sec opt : String)
    (h : c.has_section sec = false) :
    c.get sec opt = .error .noSectionError := by
  unfold ConfigObj.get
  unfold ConfigObj.has_section at h
  cases hs : c.getSection sec with
  | none => rfl
  | some l => rw [hs] at h; simp at h

theorem ConfigObj.get_noOption (c : ConfigObj) (sec opt : String)
    (hs : c.has_section sec = true) (h : c.lookupOpt sec opt = none) :
    c.get sec opt = .error .noOptionError := by
  unfold ConfigObj.get
  unfold ConfigObj.has_section at hs
  obtain ⟨l, hl⟩ := Option.isSome_iff_exists.mp hs
  unfold ConfigObj.lookupOpt at h
  rw [hl] at h ⊢
  simp at h
  simp [h]

theorem ConfigObj.has_option_ok (c : ConfigObj) (sec opt : String)
    (hs : c.has_section sec = true) :
    c.has_option sec opt = .ok (c.lookupOpt sec opt).isSome := by
  unfold ConfigObj.has_option ConfigObj.lookupOpt
  unfold ConfigObj.has_section at hs
  obtain ⟨l, hl⟩ := Option.isSome_iff_exists.mp hs
  simp [hl]

theorem ConfigObj.has_section_eq_contains (c : ConfigObj) (sec : String) :
    c.has_section sec = c.sectionNames.contains sec := by
  unfold ConfigObj.has_section ConfigObj.getSection ConfigObj.sectionNames
  induction c.sections with
  | nil => simp [sectionsLookup]
  | cons s rest ih =>
    by_cases hs : s.1 = sec
    · simp [sectionsLookup, hs]
    · have hs2 : sec ≠ s.1 := fun h => hs h.symm
      simp_all [sectionsLookup, beq_iff_eq, hs2]

theorem ConfigObj.has_section_of_lookupOpt (c : ConfigObj) (sec opt : String)
    (w : Option String) (h : c.lookupOpt sec opt = some w) :
    c.has_section sec = true := by
  unfold ConfigObj.lookupOpt at h
  unfold ConfigObj.has_section
  cases hs : c.getSection sec with
  | none => rw [hs] at h; simp at h
  | some l => simp

theorem ConfigObj.lookupOpt_none_of_no_section (c : ConfigObj) (sec opt : String)
    (h : c.has_section sec = false) :
    c.lookupOpt sec opt = none := by
  unfold ConfigObj.lookupOpt
  unfold ConfigObj.has_section at h
  cases hs : c.getSection sec with
  | none => rfl
  | some l => rw [hs] at h; simp at h

/-! Step lemmas for `Config.validate` and its inner loop. -/

theorem Config.validate_cons_missing (c : Config) (sec : String)
    (reqs : Option (List (String × String)))
    (rest : List (String × Option (List (String × String))))
    (h : c.delimited.has_section sec = false) :
    c.validate ((sec, reqs) :: rest) = .ok (some (sec, none, none)) := by
  simp only [Config.validate, h]
  simp

theorem Config.validate_cons_present (c : Config) (sec : String)
    (l : List (String × String)) (rest : List (String × Option (List (String × String))))
    (h : c.delimited.has_section sec = true) :
    c.validate ((sec, some l) :: rest) =
      match c.checkItems sec l with
      | .error e => .error e
      | .ok (some f) => .ok (some f)
      | .ok none => c.validate rest := by
  simp only [Config.validate, h]
  simp

theorem Config.validate_cons_none (c : Config) (sec : String)
    (rest : List (String × Option (List (String × String))))
    (h : c.delimited.has_section sec = true) :
    c.validate ((sec, none) :: rest) = c.validate rest := by
  simp only [Config.validate, h]
  simp

theorem Config.checkItems_cons_empty (c : Config) (sec ty : String)
    (rest : List (String × String)) :
    c.checkItems sec (("", ty) :: rest) = c.checkItems sec rest := by
  simp only [Config.checkItems]
  simp

theorem Config.checkItems_cons (c : Config) (sec setting ty : String)
    (rest : List (String × String)) (hr : ¬ setting = "") :
    c.checkItems sec ((setting, ty) :: rest) =
      match c.delimited.has_option sec setting with
      | .error e => .error e
      | .ok false => .ok (some (sec, some setting, none))
      | .ok true =>
        match (if ty == "bool" then c.boolCheck sec setting else .ok none) with
        | .error e => .error e
        | .ok (some f) => .ok (some f)
        | .ok none =>
          match (if ty == "int" then c.intCheck sec setting else .ok none) with
          | .error e => .error e
          | .ok (some f) => .ok (some f)
          | .ok none => c.checkItems sec rest := by
  simp only [Config.checkItems]
  rw [if_neg hr]

theorem Config.checkItems_single_bool (c : Config) (sec k : String) (hk : ¬ k = "")
    (hs : c.delimited.has_section sec = true) :
    c.checkItems sec [(k, "bool")] =
      match c.delimited.lookupOpt sec k with
      | none => .ok (some (sec, some k, none))
      | some none => .error .attributeError
      | some (some v) =>
        if pyUpper v == "TRUE" || pyUpper v == "FALSE" then .ok none
        else .ok (some (sec, some k, some "boolean")) := by
  rw [Config.checkItems_cons c sec k "bool" [] hk]
  rw [ConfigObj.has_option_ok c.delimited sec k hs]
  cases hl : c.delimited.lookupOpt sec k with
  | none => simp
  | some w =>
    cases w with
    | none =>
      have hg : c.delimited.get sec k = .ok none :=
        (ConfigObj.get_ok_iff c.delimited sec k none).mpr hl
      simp [Config.boolCheck, hg]
    | some v =>
      have hg : c.delimited.get sec k = .ok (some v) :=
        (ConfigObj.get_ok_iff c.delimited sec k (some v)).mpr hl
      by_cases hb : (pyUpper v == "TRUE" || pyUpper v == "FALSE") = true <;>
        simp [Config.boolCheck, hg, hb, Config.checkItems]

theorem ConfigObj.set_ok (c : ConfigObj) (sec opt v : String)
    (h : c.has_section sec = true) :
    c.set sec opt v = .ok (c.setRaw sec opt (some v)) := by
  unfold ConfigObj.set
  rw [h]
  simp

theorem ConfigObj.has_section_remove_self (c : ConfigObj) (sec : String) :
    (c.remove_section sec).has_section sec = false := by
  unfold ConfigObj.has_section
  rw [ConfigObj.getSection_remove_section]
  simp

theorem ConfigObj.add_after_remove_getSection (c : ConfigObj) (sec t : String) :
    (ConfigObj.mk ((c.remove_section sec).sections ++ [(sec, [])])).getSection t =
      if t = sec then some [] else c.getSection t := by
  unfold ConfigObj.getSection
  rw [sectionsLookup_append_single]
  by_cases ht : t = sec
  · subst ht
    have h0 : sectionsLookup (c.remove_section t).sections t = none := by
      have h1 := ConfigObj.getSection_remove_section c t t
      simpa [ConfigObj.getSection] using h1
    rw [h0]
    simp
  · have h1 := ConfigObj.getSection_remove_section c sec t
    rw [if_neg ht] at h1
    unfold ConfigObj.getSection at h1
    rw [h1]
    cases hq : sectionsLookup c.sections t <;> simp [ht]

theorem ConfigObj.add_after_remove_has_section (c : ConfigObj) (sec : String) :
    (ConfigObj.mk ((c.remove_section sec).sections ++ [(sec, [])])).has_section sec = true := by
  unfold ConfigObj.has_section
  rw [ConfigObj.add_after_remove_getSection]
  simp

/-- One-step normal form of `replace_section` with a single item: both views
hold section `sec` rebuilt empty and then assigned the item. -/
theorem Config.replace_section_single (c : Config) (sec k v : String) :
    c.replace_section sec [(k, v)] =
      .ok ⟨c.config_p,
        (ConfigObj.mk ((c.delimited.remove_section sec).sections ++ [(sec, [])])).setRaw
          sec k (some v),
        (ConfigObj.mk ((c.undelimited.remove_section sec).sections ++ [(sec, [])])).setRaw
          sec k (some v)⟩ := by
  have haD := ConfigObj.add_section_ok (c.delimited.remove_section sec) sec
    (ConfigObj.has_section_remove_self c.delimited sec)
  have haU := ConfigObj.add_section_ok (c.undelimited.remove_section sec) sec
    (ConfigObj.has_section_remove_self c.undelimited sec)
  have hsd := ConfigObj.add_after_remove_has_section c.delimited sec
  have hsu := ConfigObj.add_after_remove_has_section c.undelimited sec
  simp only [Config.replace_section, haD, haU, Config.merge_section,
    ConfigObj.set_ok _ _ _ _ hsd, ConfigObj.set_ok _ _ _ _ hsu]

/-- After `replace_section sec [(k, v)]`, the delimited view's section `sec`
holds exactly the one option `k` with value `v`. -/
theorem Config.replace_single_lookup (c : Config) (sec k v q : String) :
    ((ConfigObj.mk ((c.delimited.remove_section sec).sections ++ [(sec, [])])).setRaw
        sec k (some v)).lookupOpt sec q =
      if q = k then some (some v) else none := by
  rw [ConfigObj.lookupOpt_setRaw_self _ _ _ _ _
    (ConfigObj.add_after_remove_has_section c.delimited sec)]
  by_cases hq : q = k
  · simp [hq]
  · rw [if_neg hq, if_neg hq]
    unfold ConfigObj.lookupOpt
    rw [ConfigObj.add_after_remove_getSection]
    simp [assocLookup]

/-! Claim theorems. -/

/-- Claim C1 (code finding): on a store in which section `S` does not exist,
`merge_section` with a non-empty items mapping does not create the section —
the first `ConfigParser.set` call raises NoSectionError, contradicting the
claim and the function's own docstring, which promises that a missing section
is created. Evaluated at the concrete failing input. -/
theorem merge_section_missing_section_raises :
    Config.merge_section ⟨"config.ini", ⟨[]⟩, ⟨[]⟩⟩ "S" [("a", "1")] =
      .error .noSectionError := rfl

/-- Claim C3: for an existing section/option whose value is a string,
`get_boolean` returns `true` exactly when the value case-insensitively equals
one of true/t/yes/y/on/1, returns `false` exactly when it case-insensitively
equals one of false/f/no/n/off/0, and raises a ValueError for every other
string value. -/
theorem get_boolean_alias_sets (c : Config) (sec item v : String)
    (h : c.delimited.lookupOpt sec item = some (some v)) :
    (c.get_boolean sec item = .ok true ↔
      pyUpper v ∈ ["TRUE", "T", "YES", "Y", "ON", "1"])
    ∧ (c.get_boolean sec item = .ok false ↔
      pyUpper v ∈ ["FALSE", "F", "NO", "N", "OFF", "0"])
    ∧ (pyUpper v ∉ ["TRUE", "T", "YES", "Y", "ON", "1"] →
        pyUpper v ∉ ["FALSE", "F", "NO", "N", "OFF", "0"] →
        c.get_boolean sec item = .error .valueError) := by
  have hg : c.delimited.get sec item = .ok (some v) :=
    (ConfigObj.get_ok_iff c.delimited sec item (some v)).mpr h
  unfold Config.get_boolean
  rw [hg]
  by_cases h1 : pyUpper v ∈ ["TRUE", "T", "YES", "Y", "ON", "1"] <;>
    by_cases h2 : pyUpper v ∈ ["FALSE", "F", "NO", "N", "OFF", "0"] <;>
    simp_all
  rcases h1 with h1 | h1 | h1 | h1 | h1 | h1 <;>
    rcases h2 with h2 | h2 | h2 | h2 | h2 | h2 <;> simp_all

/-- Witness for C3 at a concrete store: section `S` holds option `k` with the
string value `Off`, and `get_boolean` classifies it as a false-alias. -/
theorem get_boolean_alias_sets_witness :
    ((Config.mk "config.ini" ⟨[("S", [("k", some "Off")])]⟩
        ⟨[("S", [("k", some "Off")])]⟩).get_boolean "S" "k" = .ok true ↔
      pyUpper "Off" ∈ ["TRUE", "T", "YES", "Y", "ON", "1"])
    ∧ ((Config.mk "config.ini" ⟨[("S", [("k", some "Off")])]⟩
        ⟨[("S", [("k", some "Off")])]⟩).get_boolean "S" "k" = .ok false ↔
      pyUpper "Off" ∈ ["FALSE", "F", "NO", "N", "OFF", "0"])
    ∧ (pyUpper "Off" ∉ ["TRUE", "T", "YES", "Y", "ON", "1"] →
        pyUpper "Off" ∉ ["FALSE", "F", "NO", "N", "OFF", "0"] →
        (Config.mk "config.ini" ⟨[("S", [("k", some "Off")])]⟩
          ⟨[("S", [("k", some "Off")])]⟩).get_boolean "S" "k" = .error .valueError) :=
  get_boolean_alias_sets
    (Config.mk "config.ini" ⟨[("S", [("k", some "Off")])]⟩ ⟨[("S", [("k", some "Off")])]⟩)
    "S" "k" "Off" rfl

/-- Claim C7: for an existing section and option, `get_string` returns the
option's string value from the delimited view, returns the empty string when
the option exists with an undefined value, and propagates a lookup error when
the section or the option does not exist. -/
theorem get_string_behavior (c : Config) (sec item : String) :
    (∀ v : String, c.delimited.lookupOpt sec item = some (some v) →
      c.get_string sec item = .ok v)
    ∧ (c.delimited.lookupOpt sec item = some none →
      c.get_string sec item = .ok "")
    ∧ (c.delimited.has_section sec = false →
      c.get_string sec item = .error .noSectionError)
    ∧ (c.delimited.has_section sec = true →
      c.delimited.lookupOpt sec item = none →
      c.get_string sec item = .error .noOptionError) := by
  refine ⟨fun v hv => ?_, fun hu => ?_, fun hs => ?_, fun hs ho => ?_⟩
  · have hg : c.delimited.get sec item = .ok (some v) :=
      (ConfigObj.get_ok_iff c.delimited sec item (some v)).mpr hv
    unfold Config.get_string
    rw [hg]
  · have hg : c.delimited.get sec item = .ok none :=
      (ConfigObj.get_ok_iff c.delimited sec item none).mpr hu
    unfold Config.get_string
    rw [hg]
  · unfold Config.get_string
    rw [ConfigObj.get_noSection c.delimited sec item hs]
  · unfold Config.get_string
    rw [ConfigObj.get_noOption c.delimited sec item hs ho]

/-- Witness for C7 at a concrete store: `S.k` holds `hello`, `S.raw` is a key
with no value, section `T` is absent, and option `z` is absent from `S`. -/
theorem get_string_behavior_witness :
    ((Config.mk "config.ini" ⟨[("S", [("k", some "hello"), ("raw", none)])]⟩
        ⟨[("S", [("k", some "hello"), ("raw", none)])]⟩).get_string "S" "k" = .ok "hello")
    ∧ ((Config.mk "config.ini" ⟨[("S", [("k", some "hello"), ("raw", none)])]⟩
        ⟨[("S", [("k", some "hello"), ("raw", none)])]⟩).get_string "S" "raw" = .ok "")
    ∧ ((Config.mk "config.ini" ⟨[("S", [("k", some "hello"), ("raw", none)])]⟩
        ⟨[("S", [("k", some "hello"), ("raw", none)])]⟩).get_string "T" "k" =
          .error .noSectionError)
    ∧ ((Config.mk "config.ini" ⟨[("S", [("k", some "hello"), ("raw", none)])]⟩
        ⟨[("S", [("k", some "hello"), ("raw", none)])]⟩).get_string "S" "z" =
          .error .noOptionError) := by
  refine ⟨?_, ?_, ?_, ?_⟩
  · exact (get_string_behavior _ "S" "k").1 "hello" rfl
  · exact (get_string_behavior _ "S" "raw").2.1 rfl
  · exact (get_string_behavior _ "T" "k").2.2.1 rfl
  · exact (get_string_behavior _ "S" "z").2.2.2 rfl rfl

/-- Claim C10: for an existing section and option whose value is undefined (a
key written with no `=value`), `get_boolean` fails with the AttributeError from
calling a string method on the undefined value — not with the ValueError used
for unrecognized strings — and does not apply `get_string`'s empty-string
normalization. -/
theorem get_boolean_undefined_value (c : Config) (sec item : String)
    (h : c.delimited.lookupOpt sec item = some none) :
    c.get_boolean sec item = .error .attributeError
    ∧ c.get_boolean sec item ≠ .error .valueError
    ∧ c.get_string sec item = .ok "" := by
  have hg : c.delimited.get sec item = .ok none :=
    (ConfigObj.get_ok_iff c.delimited sec item none).mpr h
  refine ⟨?_, ?_, (get_string_behavior c sec item).2.1 h⟩
  · unfold Config.get_boolean
    rw [hg]
  · unfold Config.get_boolean
    rw [hg]
    simp

/-- Witness for C10 at a concrete store: `S.raw` is a key with no value. -/
theorem get_boolean_undefined_value_witness :
    ((Config.mk "config.ini" ⟨[("S", [("raw", none)])]⟩
        ⟨[("S", [("raw", none)])]⟩).get_boolean "S" "raw" = .error .attributeError)
    ∧ ((Config.mk "config.ini" ⟨[("S", [("raw", none)])]⟩
        ⟨[("S", [("raw", none)])]⟩).get_boolean "S" "raw" ≠ .error .valueError)
    ∧ ((Config.mk "config.ini" ⟨[("S", [("raw", none)])]⟩
        ⟨[("S", [("raw", none)])]⟩).get_string "S" "raw" = .ok "") :=
  get_boolean_undefined_value
    (Config.mk "config.ini" ⟨[("S", [("raw", none)])]⟩ ⟨[("S", [("raw", none)])]⟩)
    "S" "raw" rfl

/-- Claim C2: for a store in which option `k` of section `S` is not a
valueless key, `validate` on the single requirement `(k, bool)` succeeds
exactly when the section and the option exist and the value case-insensitively
equals true or false; any other string value yields the descriptor
`(S, k, boolean)` — even though `get_boolean` accepts that same value when it
is, for example, `yes`. -/
theorem validate_bool_strict (c : Config)
    (h : c.delimited.lookupOpt "S" "k" ≠ some none) :
    (c.validate [("S", some [("k", "bool")])] = .ok none ↔
      ∃ v : String, c.delimited.lookupOpt "S" "k" = some (some v) ∧
        (pyUpper v = "TRUE" ∨ pyUpper v = "FALSE"))
    ∧ (∀ v : String, c.delimited.lookupOpt "S" "k" = some (some v) →
        ¬(pyUpper v = "TRUE" ∨ pyUpper v = "FALSE") →
        c.validate [("S", some [("k", "bool")])] =
          .ok (some ("S", some "k", some "boolean")))
    ∧ (∀ c2 : Config, c2.delimited.lookupOpt "S" "k" = some (some "yes") →
        c2.get_boolean "S" "k" = .ok true) := by
  have h3 : ∀ c2 : Config, c2.delimited.lookupOpt "S" "k" = some (some "yes") →
      c2.get_boolean "S" "k" = .ok true := by
    intro c2 h2
    have hg : c2.delimited.get "S" "k" = .ok (some "yes") :=
      (ConfigObj.get_ok_iff c2.delimited "S" "k" (some "yes")).mpr h2
    unfold Config.get_boolean
    rw [hg]
    rfl
  by_cases hsec : c.delimited.has_section "S" = true
  · cases hl : c.delimited.lookupOpt "S" "k" with
    | none =>
      have hval : c.validate [("S", some [("k", "bool")])] =
          .ok (some ("S", some "k", none)) := by
        rw [Config.validate_cons_present c "S" [("k", "bool")] [] hsec,
          Config.checkItems_single_bool c "S" "k" (by decide) hsec, hl]
      refine ⟨⟨fun hc => ?_, fun hex => ?_⟩, fun v hv _ => ?_, h3⟩
      · rw [hval] at hc
        exact absurd hc (by simp)
      · obtain ⟨v, hv, -⟩ := hex
        exact absurd hv (by simp)
      · exact absurd hv (by simp)
    | some w =>
      cases w with
      | none => exact absurd hl h
      | some v =>
        by_cases hb : pyUpper v = "TRUE" ∨ pyUpper v = "FALSE"
        · have hbb : (pyUpper v == "TRUE" || pyUpper v == "FALSE") = true := by
            rcases hb with hb | hb <;> simp [hb]
          have hval : c.validate [("S", some [("k", "bool")])] = .ok none := by
            rw [Config.validate_cons_present c "S" [("k", "bool")] [] hsec,
              Config.checkItems_single_bool c "S" "k" (by decide) hsec, hl]
            simp [hbb, Config.validate]
          refine ⟨⟨fun _ => ⟨v, rfl, hb⟩, fun _ => hval⟩, fun v2 hv2 hb2 => ?_, h3⟩
          have hvv : v = v2 := by simpa using hv2
          exact absurd (by rw [← hvv]; exact hb) hb2
        · have hbb : (pyUpper v == "TRUE" || pyUpper v == "FALSE") = false := by
            push_neg at hb
            simp [hb.1, hb.2]
          have hval : c.validate [("S", some [("k", "bool")])] =
              .ok (some ("S", some "k", some "boolean")) := by
            rw [Config.validate_cons_present c "S" [("k", "bool")] [] hsec,
              Config.checkItems_single_bool c "S" "k" (by decide) hsec, hl]
            simp [hbb]
          refine ⟨⟨fun hc => ?_, fun hex => ?_⟩, fun v2 hv2 hb2 => ?_, h3⟩
          · rw [hval] at hc
            exact absurd hc (by simp)
          · obtain ⟨v2, hv2, hb2⟩ := hex
            have hvv : v = v2 := by simpa using hv2
            exact absurd (by rw [hvv]; exact hb2) hb
          · exact hval
  · have hs : c.delimited.has_section "S" = false := by
      cases hq : c.delimited.has_section "S"
      · rfl
      · exact absurd hq hsec
    have hval := Config.validate_cons_missing c "S" (some [("k", "bool")]) [] hs
    have hlnone : c.delimited.lookupOpt "S" "k" = none :=
      ConfigObj.lookupOpt_none_of_no_section c.delimited "S" "k" hs
    refine ⟨⟨fun hc => ?_, fun hex => ?_⟩, fun v hv _ => ?_, h3⟩
    · rw [hval] at hc
      exact absurd hc (by simp)
    · obtain ⟨v, hv, -⟩ := hex
      exact absurd (hlnone.symm.trans hv) (by simp)
    · exact absurd (hlnone.symm.trans hv) (by simp)

/-- Witness for C2 at a concrete store: `S.k` holds the string `yes`, which
`validate` rejects for type bool while `get_boolean` accepts it as true. -/
theorem validate_bool_strict_witness :
    ((Config.mk "config.ini" ⟨[("S", [("k", some "yes")])]⟩
        ⟨[("S", [("k", some "yes")])]⟩).validate [("S", some [("k", "bool")])] =
          .ok none ↔
      ∃ v : String, (Config.mk "config.ini" ⟨[("S", [("k", some "yes")])]⟩
        ⟨[("S", [("k", some "yes")])]⟩).delimited.lookupOpt "S" "k" = some (some v) ∧
        (pyUpper v = "TRUE" ∨ pyUpper v = "FALSE"))
    ∧ (∀ v : String, (Config.mk "config.ini" ⟨[("S", [("k", some "yes")])]⟩
        ⟨[("S", [("k", some "yes")])]⟩).delimited.lookupOpt "S" "k" = some (some v) →
        ¬(pyUpper v = "TRUE" ∨ pyUpper v = "FALSE") →
        (Config.mk "config.ini" ⟨[("S", [("k", some "yes")])]⟩
          ⟨[("S", [("k", some "yes")])]⟩).validate [("S", some [("k", "bool")])] =
            .ok (some ("S", some "k", some "boolean")))
    ∧ (∀ c2 : Config, c2.delimited.lookupOpt "S" "k" = some (some "yes") →
        c2.get_boolean "S" "k" = .ok true) :=
  validate_bool_strict
    (Config.mk "config.ini" ⟨[("S", [("k", some "yes")])]⟩ ⟨[("S", [("k", some "yes")])]⟩)
    (by decide)

/-- Claim C9: `validate` never checks a required option whose name is the empty
string — filtering all empty-named pairs out of every section's requirement
list leaves the result of `validate` unchanged, for every store and every
requirements mapping. -/
theorem validate_skips_empty_option_names (c : Config)
    (sections : List (String × Option (List (String × String)))) :
    c.validate (sections.map (fun p =>
      (p.1, p.2.map (fun l => l.filter (fun r => r.1 != ""))))) =
      c.validate sections := by
  have hitems : ∀ sec l, c.checkItems sec (l.filter (fun r => r.1 != "")) =
      c.checkItems sec l := by
    intro sec l
    induction l with
    | nil => rfl
    | cons r rest ih =>
      obtain ⟨setting, ty⟩ := r
      by_cases hr : setting = ""
      · subst hr
        have hf : (("", ty) :: rest).filter (fun r => r.1 != "") =
            rest.filter (fun r => r.1 != "") := by
          simp [List.filter_cons]
        rw [hf, ih, Config.checkItems_cons_empty]
      · have hf : ((setting, ty) :: rest).filter (fun r => r.1 != "") =
            (setting, ty) :: rest.filter (fun r => r.1 != "") := by
          simp [List.filter_cons, hr]
        rw [hf, Config.checkItems_cons c sec setting ty _ hr,
          Config.checkItems_cons c sec setting ty rest hr, ih]
  induction sections with
  | nil => rfl
  | cons p rest ih =>
    obtain ⟨sec, reqs⟩ := p
    by_cases hs : c.delimited.has_section sec = true
    · cases reqs with
      | none =>
        simp only [List.map_cons, Option.map_none']
        rw [Config.validate_cons_none c sec _ hs, Config.validate_cons_none c sec rest hs, ih]
      | some l =>
        simp only [List.map_cons, Option.map_some']
        rw [Config.validate_cons_present c sec _ _ hs,
          Config.validate_cons_present c sec l rest hs, hitems sec l, ih]
    · have hs2 : c.delimited.has_section sec = false := by
        cases hq : c.delimited.has_section sec
        · rfl
        · exact absurd hq hs
      simp only [List.map_cons]
      rw [Config.validate_cons_missing c sec _ _ hs2,
        Config.validate_cons_missing c sec reqs rest hs2]

/-- Claim C5: for a path that does not reference an existing file, the
constructor raises a `ConfigError` whose code is 2 and whose message contains
the resolved absolute form of the path; a `ConfigError` constructed without an
explicit code has code 0. -/
theorem init_missing_file_error (fs : FileSystem) (p : String)
    (h : fs.pathExists p = false) :
    (Config.init fs p =
      .error (.configError ⟨"Cannot locate config file: " ++ fs.absPath p, 2⟩))
    ∧ (∃ pre : String,
        "Cannot locate config file: " ++ fs.absPath p = pre ++ fs.absPath p)
    ∧ (∀ m : String, ({ message := m } : ConfigError).code = 0) := by
  refine ⟨?_, ⟨"Cannot locate config file: ", rfl⟩, fun m => rfl⟩
  unfold Config.init
  rw [h]
  simp

/-- A filesystem with no files, for the C5 witness. -/
def fsEmpty : FileSystem :=
  ⟨fun _ => false, fun p => "/abs/" ++ p, fun _ => []⟩

/-- Witness for C5 at a concrete filesystem and path. -/
theorem init_missing_file_error_witness :
    (Config.init fsEmpty "cfg.ini" =
      .error (.configError ⟨"Cannot locate config file: " ++ fsEmpty.absPath "cfg.ini", 2⟩))
    ∧ (∃ pre : String,
        "Cannot locate config file: " ++ fsEmpty.absPath "cfg.ini" =
          pre ++ fsEmpty.absPath "cfg.ini")
    ∧ (∀ m : String, ({ message := m } : ConfigError).code = 0) :=
  init_missing_file_error fsEmpty "cfg.ini" rfl

/-- Claim C6: on a store whose section `S` holds exactly `a = 0` and `b = x`,
`merge_section "S" {a: 1}` leaves `S` holding exactly `a = 1, b = x`, while
`replace_section "S" {a: 1}` leaves `S` holding exactly `a = 1`; and
`replace_section` also succeeds, creating the section, when `S` was absent. -/
theorem merge_vs_replace_section (c : Config)
    (hA : c.delimited.lookupOpt "S" "a" = some (some "0"))
    (hB : c.delimited.lookupOpt "S" "b" = some (some "x"))
    (hOnly : ∀ o : String, o ≠ "a" → o ≠ "b" → c.delimited.lookupOpt "S" o = none)
    (hU : c.undelimited.has_section "S" = true) :
    (∃ c1 : Config, c.merge_section "S" [("a", "1")] = .ok c1 ∧
      ∀ o : String, c1.delimited.lookupOpt "S" o =
        if o = "a" then some (some "1")
        else if o = "b" then some (some "x") else none)
    ∧ (∃ c2 : Config, c.replace_section "S" [("a", "1")] = .ok c2 ∧
      ∀ o : String, c2.delimited.lookupOpt "S" o =
        if o = "a" then some (some "1") else none)
    ∧ (∀ c0 : Config, c0.delimited.has_section "S" = false →
        c0.undelimited.has_section "S" = false →
        ∃ c3 : Config, c0.replace_section "S" [("a", "1")] = .ok c3 ∧
          c3.delimited.has_section "S" = true ∧
          ∀ o : String, c3.delimited.lookupOpt "S" o =
            if o = "a" then some (some "1") else none) := by
  have hDs : c.delimited.has_section "S" = true :=
    ConfigObj.has_section_of_lookupOpt c.delimited "S" "a" (some "0") hA
  refine ⟨?_, ?_, ?_⟩
  · have hmerge : c.merge_section "S" [("a", "1")] =
        .ok ⟨c.config_p, c.delimited.setRaw "S" "a" (some "1"),
          c.undelimited.setRaw "S" "a" (some "1")⟩ := by
      simp only [Config.merge_section, ConfigObj.set_ok _ _ _ _ hDs,
        ConfigObj.set_ok _ _ _ _ hU]
    refine ⟨_, hmerge, fun o => ?_⟩
    rw [ConfigObj.lookupOpt_setRaw_self c.delimited "S" "a" (some "1") o hDs]
    by_cases ha : o = "a"
    · simp [ha]
    · by_cases hbo : o = "b"
      · simp [ha, hbo, hB]
      · simp [ha, hbo, hOnly o ha hbo]
  · exact ⟨_, Config.replace_section_single c "S" "a" "1",
      fun o => Config.replace_single_lookup c "S" "a" "1" o⟩
  · intro c0 _ _
    refine ⟨_, Config.replace_section_single c0 "S" "a" "1",
      ?_, fun o => Config.replace_single_lookup c0 "S" "a" "1" o⟩
    rw [ConfigObj.has_section_setRaw]
    exact ConfigObj.add_after_remove_has_section c0.delimited "S"

/-- The sample store for the C6 witness: section `S` holding `a = 0, b = x` in
both views. -/
def cSampleMerge : Config :=
  ⟨"config.ini", ⟨[("S", [("a", some "0"), ("b", some "x")])]⟩,
    ⟨[("S", [("a", some "0"), ("b", some "x")])]⟩⟩

/-- Witness for C6 at the concrete sample store. -/
theorem merge_vs_replace_section_witness :
    (∃ c1 : Config, cSampleMerge.merge_section "S" [("a", "1")] = .ok c1 ∧
      ∀ o : String, c1.delimited.lookupOpt "S" o =
        if o = "a" then some (some "1")
        else if o = "b" then some (some "x") else none)
    ∧ (∃ c2 : Config, cSampleMerge.replace_section "S" [("a", "1")] = .ok c2 ∧
      ∀ o : String, c2.delimited.lookupOpt "S" o =
        if o = "a" then some (some "1") else none)
    ∧ (∀ c0 : Config, c0.delimited.has_section "S" = false →
        c0.undelimited.has_section "S" = false →
        ∃ c3 : Config, c0.replace_section "S" [("a", "1")] = .ok c3 ∧
          c3.delimited.has_section "S" = true ∧
          ∀ o : String, c3.delimited.lookupOpt "S" o =
            if o = "a" then some (some "1") else none) :=
  merge_vs_replace_section cSampleMerge rfl rfl
    (by
      intro o ha hb
      have ha2 : "a" ≠ o := fun hx => ha hx.symm
      have hb2 : "b" ≠ o := fun hx => hb hx.symm
      simp [cSampleMerge, ConfigObj.lookupOpt, ConfigObj.getSection, sectionsLookup,
        assocLookup, ha2, hb2])
    rfl

/-- Modelled from the spec (§4.1 `validate`): the outcome the spec prescribes
for checking one required (name, type) pair of an existing section — missing
option, then a bool value that must case-insensitively equal true/false, then
an int value that must be parseable as a base-10 integer; otherwise no
failure. (A valueless key is treated as no failure here; the refinement below
excludes that case, where the implementation raises instead.) -/
def specOptionFailure (c : Config) (sec : String) (r : String × String) : Option Fail :=
  match c.delimited.lookupOpt sec r.1 with
  | none => some (sec, some r.1, none)
  | some none => none
  | some (some v) =>
    if r.2 == "bool" && !(pyUpper v == "TRUE" || pyUpper v == "FALSE") then
      some (sec, some r.1, some "boolean")
    else if r.2 == "int" && !(pyIntParseable v) then
      some (sec, some r.1, some "integer")
    else none

/-- Modelled from the spec: the first failure of one required section — a
missing section, else the first failing option check in the caller-provided
order (pairs with an empty option name are skipped, as the implementation's
truthiness test does). -/
def specSectionFailure (c : Config) (sec : String)
    (reqs : Option (List (String × String))) : Option Fail :=
  if c.delimited.has_section sec = false then some (sec, none, none)
  else (reqs.getD []).findSome?
    (fun r => if r.1 = "" then none else specOptionFailure c sec r)

/-- Modelled from the spec: the first failing check over the required sections
in caller order, or no failure. -/
def validateSpec (c : Config)
    (sections : List (String × Option (List (String × String)))) : Option Fail :=
  sections.findSome? (fun p => specSectionFailure c p.1 p.2)

theorem Config.checkItems_spec (c : Config) (sec : String)
    (hs : c.delimited.has_section sec = true)
    (hNoUndef : ∀ o : String, c.delimited.lookupOpt sec o ≠ some none)
    (l : List (String × String)) :
    c.checkItems sec l =
      .ok (l.findSome?
        (fun r => if r.1 = "" then none else specOptionFailure c sec r)) := by
  induction l with
  | nil => rfl
  | cons r rest ih =>
    obtain ⟨setting, ty⟩ := r
    by_cases hr : setting = ""
    · subst hr
      rw [Config.checkItems_cons_empty, ih]
      simp [List.findSome?_cons]
    · rw [Config.checkItems_cons c sec setting ty rest hr,
        ConfigObj.has_option_ok c.delimited sec setting hs]
      cases hl : c.delimited.lookupOpt sec setting with
      | none =>
        simp [List.findSome?_cons, hr, specOptionFailure, hl]
      | some w =>
        cases w with
        | none => exact absurd hl (hNoUndef setting)
        | some v =>
          have hg : c.delimited.get sec setting = .ok (some v) :=
            (ConfigObj.get_ok_iff c.delimited sec setting (some v)).mpr hl
          by_cases hbty : ty = "bool"
          · subst hbty
            by_cases hup : (pyUpper v == "TRUE" || pyUpper v == "FALSE") = true
            · have hup2 : pyUpper v = "TRUE" ∨ pyUpper v = "FALSE" := by simpa using hup
              rcases hup2 with hvv | hvv <;>
                simp [List.findSome?_cons, hr, specOptionFailure, hl,
                  Config.boolCheck, hg, hup, hvv, ih]
            · have hup2 : ¬pyUpper v = "TRUE" ∧ ¬pyUpper v = "FALSE" := by simpa using hup
              simp [List.findSome?_cons, hr, specOptionFailure, hl,
                Config.boolCheck, hg, hup, hup2.1, hup2.2]
          · by_cases hity : ty = "int"
            · subst hity
              by_cases hp : pyIntParseable v = true
              · simp [List.findSome?_cons, hr, specOptionFailure, hl,
                  Config.intCheck, hg, hp, ih]
              · simp [List.findSome?_cons, hr, specOptionFailure, hl,
                  Config.intCheck, hg, hp]
            · simp [List.findSome?_cons, hr, specOptionFailure, hl, hbty, hity, ih]

/-- C4 counterexample: on a store in which section `S` holds the valueless key
`k` (a key written with no `=value`, which satisfies the claim's stated
precondition on the requirements mapping), `validate({"S": [("k", "bool")]})`
raises an AttributeError from `None.upper()` instead of returning a
descriptor — so `validate` does not "never raise". -/
theorem validate_raises_on_valueless_bool :
    (Config.mk "config.ini" ⟨[("S", [("k", none)])]⟩
      ⟨[("S", [("k", none)])]⟩).validate [("S", some [("k", "bool")])] =
      .error .attributeError := rfl

/-- Claim C4 (amended): for every requirements mapping, provided no option of
the delimited view is a valueless key, `validate` never raises: it returns the
tri-part descriptor of the first failing check in caller-provided order —
section missing `(section, none, none)`, option missing
`(section, option, none)`, type mismatch `(section, option, type name)`, with
empty-named required options skipped — and no-failure when every check
passes. -/
theorem validate_first_failure (c : Config)
    (sections : List (String × Option (List (String × String))))
    (hNoUndef : ∀ s o : String, c.delimited.lookupOpt s o ≠ some none) :
    c.validate sections = .ok (validateSpec c sections) := by
  induction sections with
  | nil => rfl
  | cons p rest ih =>
    obtain ⟨sec, reqs⟩ := p
    by_cases hs : c.delimited.has_section sec = true
    · cases reqs with
      | none =>
        rw [Config.validate_cons_none c sec rest hs, ih]
        simp [validateSpec, List.findSome?_cons, specSectionFailure, hs]
      | some l =>
        rw [Config.validate_cons_present c sec l rest hs,
          Config.checkItems_spec c sec hs (hNoUndef sec) l]
        cases hf : l.findSome?
            (fun r => if r.1 = "" then none else specOptionFailure c sec r) with
        | none =>
          rw [ih]
          simp [validateSpec, List.findSome?_cons, specSectionFailure, hs, hf]
        | some f =>
          simp [validateSpec, List.findSome?_cons, specSectionFailure, hs, hf]
    · have hs2 : c.delimited.has_section sec = false := by
        cases hq : c.delimited.has_section sec
        · rfl
        · exact absurd hq hs
      rw [Config.validate_cons_missing c sec reqs rest hs2]
      simp [validateSpec, List.findSome?_cons, specSectionFailure, hs2]

/-- The sample store for the C4 witness: one section `S` with a single
string-valued option `a = 5`, no valueless keys anywhere. -/
def cSampleValidate : Config :=
  ⟨"config.ini", ⟨[("S", [("a", some "5")])]⟩, ⟨[("S", [("a", some "5")])]⟩⟩

/-- Witness for C4 (amended) at a concrete store and requirements mapping:
the required bool option `a` holds `5`, so the first failing check is the
boolean type check of `S.a`. -/
theorem validate_first_failure_witness :
    cSampleValidate.validate [("S", some [("a", "bool")]), ("T", none)] =
      .ok (validateSpec cSampleValidate [("S", some [("a", "bool")]), ("T", none)]) :=
  validate_first_failure cSampleValidate [("S", some [("a", "bool")]), ("T", none)]
    (by
      intro s o
      simp only [cSampleValidate, ConfigObj.lookupOpt, ConfigObj.getSection,
        sectionsLookup, assocLookup]
      by_cases hS : ("S" == s) = true
      · simp only [hS, if_true, Option.some_bind]
        by_cases ha : ("a" == o) = true <;> simp [assocLookup, ha]
      · simp [hS])

theorem map_fst_filter_ne (ss : List (String × List (String × Option String)))
    (sec : String) :
    (ss.filter (fun s => s.1 != sec)).map (fun s => s.1) =
      (ss.map (fun s => s.1)).filter (fun n => n != sec) := by
  induction ss with
  | nil => rfl
  | cons s rest ih =>
    by_cases hs : (s.1 != sec) = true <;> simp [List.filter_cons, hs, ih]

theorem ConfigObj.set_ok_inv (c : ConfigObj) (sec opt v : String) (d : ConfigObj)
    (h : c.set sec opt v = .ok d) : d = c.setRaw sec opt (some v) := by
  unfold ConfigObj.set at h
  split at h
  · cases h
    rfl
  · simp at h

theorem Config.merge_section_names (items : List (String × String)) :
    ∀ (c c' : Config) (sec : String),
      c.merge_section sec items = .ok c' →
      c'.delimited.sectionNames = c.delimited.sectionNames ∧
      c'.undelimited.sectionNames = c.undelimited.sectionNames := by
  induction items with
  | nil =>
    intro c c' sec h
    simp only [Config.merge_section] at h
    cases h
    exact ⟨rfl, rfl⟩
  | cons kv rest ih =>
    intro c c' sec h
    obtain ⟨k, v⟩ := kv
    simp only [Config.merge_section] at h
    cases hd : c.delimited.set sec k v with
    | error e => rw [hd] at h; simp at h
    | ok dObj =>
      cases hu : c.undelimited.set sec k v with
      | error e => rw [hd, hu] at h; simp at h
      | ok uObj =>
        rw [hd, hu] at h
        obtain ⟨h1, h2⟩ := ih ⟨c.config_p, dObj, uObj⟩ c' sec h
        have hd2 := ConfigObj.set_ok_inv c.delimited sec k v dObj hd
        have hu2 := ConfigObj.set_ok_inv c.undelimited sec k v uObj hu
        constructor
        · rw [h1, hd2, ConfigObj.sectionNames_setRaw]
        · rw [h2, hu2, ConfigObj.sectionNames_setRaw]

theorem Config.replace_section_names (c c' : Config) (sec : String)
    (items : List (String × String)) (h : c.replace_section sec items = .ok c') :
    c'.delimited.sectionNames =
      c.delimited.sectionNames.filter (fun n => n != sec) ++ [sec] ∧
    c'.undelimited.sectionNames =
      c.undelimited.sectionNames.filter (fun n => n != sec) ++ [sec] := by
  simp only [Config.replace_section] at h
  rw [ConfigObj.add_section_ok _ _ (ConfigObj.has_section_remove_self c.delimited sec),
    ConfigObj.add_section_ok _ _ (ConfigObj.has_section_remove_self c.undelimited sec)] at h
  obtain ⟨h1, h2⟩ := Config.merge_section_names items _ _ _ h
  constructor
  · rw [h1]
    show ((c.delimited.remove_section sec).sections ++ [(sec, [])]).map
      (fun (s : String × List (String × Option String)) => s.1) = _
    simp only [ConfigObj.remove_section, List.map_append]
    rw [map_fst_filter_ne]
    rfl
  · rw [h2]
    show ((c.undelimited.remove_section sec).sections ++ [(sec, [])]).map
      (fun (s : String × List (String × Option String)) => s.1) = _
    simp only [ConfigObj.remove_section, List.map_append]
    rw [map_fst_filter_ne]
    rfl

/-- The delimited and the undelimited pass of the reader visit the same lines,
recognize the same section headers, and hence build the same section-name
list whenever both succeed. -/
theorem readLoop_sectionNames_eq (lines : List String) :
    ∀ (cur : Option String) (accD accU d u : ConfigObj),
      accD.sectionNames = accU.sectionNames →
      readLoop true cur accD lines = .ok d →
      readLoop false cur accU lines = .ok u →
      d.sectionNames = u.sectionNames := by
  induction lines with
  | nil =>
    intro cur accD accU d u heq hd hu
    simp only [readLoop] at hd hu
    cases hd
    cases hu
    exact heq
  | cons line rest ih =>
    intro cur accD accU d u heq hd hu
    simp only [readLoop] at hd hu
    by_cases hv : pyStrip line = ""
    · rw [if_pos hv] at hd hu
      exact ih cur accD accU d u heq hd hu
    · rw [if_neg hv] at hd hu
      by_cases hc : (headCharIs (pyStrip line) ';' || headCharIs (pyStrip line) '#') = true
      · rw [if_pos hc] at hd hu
        exact ih cur accD accU d u heq hd hu
      · rw [if_neg hc] at hd hu
        cases hh : parseSectionHeader (pyStrip line) with
        | some name =>
          simp only [hh] at hd hu
          have hsame : accD.has_section name = accU.has_section name := by
            rw [ConfigObj.has_section_eq_contains, ConfigObj.has_section_eq_contains, heq]
          by_cases hD : accD.has_section name = true
          · rw [if_pos hD] at hd
            exact absurd hd (by simp)
          · rw [if_neg hD] at hd
            rw [if_neg (by rw [← hsame]; exact hD)] at hu
            refine ih (some name) _ _ d u ?_ hd hu
            show (accD.sections ++ [(name, [])]).map
                (fun (s : String × List (String × Option String)) => s.1) =
              (accU.sections ++ [(name, [])]).map
                (fun (s : String × List (String × Option String)) => s.1)
            rw [List.map_append, List.map_append]
            unfold ConfigObj.sectionNames at heq
            rw [heq]
        | none =>
          simp only [hh] at hd hu
          cases cur with
          | none => exact absurd hd (by simp)
          | some sec =>
            dsimp only at hd
            have hpu : parseOptionLine false (pyStrip line) = (pyStrip line, none) := by
              simp [parseOptionLine]
            simp only [hpu] at hu
            by_cases hkD : (parseOptionLine true (pyStrip line)).1 = ""
            · rw [if_pos hkD] at hd
              exact absurd hd (by simp)
            · rw [if_neg hkD] at hd
              by_cases hdD :
                  (accD.lookupOpt sec (parseOptionLine true (pyStrip line)).1).isSome = true
              · rw [if_pos hdD] at hd
                exact absurd hd (by simp)
              · rw [if_neg hdD] at hd
                rw [if_neg hv] at hu
                by_cases hdU : (accU.lookupOpt sec (pyStrip line)).isSome = true
                · rw [if_pos hdU] at hu
                  exact absurd hu (by simp)
                · rw [if_neg hdU] at hu
                  refine ih (some sec) _ _ d u ?_ hd hu
                  rw [ConfigObj.sectionNames_setRaw, ConfigObj.sectionNames_setRaw]
                  exact heq

theorem readLines_sectionNames_eq (lines : List String) (d u : ConfigObj)
    (hd : readLines true lines = .ok d) (hu : readLines false lines = .ok u) :
    d.sectionNames = u.sectionNames :=
  readLoop_sectionNames_eq lines none ⟨[]⟩ ⟨[]⟩ d u rfl hd hu

theorem Config.init_ok_inv (fs : FileSystem) (p : String) (c : Config)
    (h : Config.init fs p = .ok c) :
    readLines true (fs.contents p) = .ok c.delimited ∧
    readLines false (fs.contents p) = .ok c.undelimited := by
  unfold Config.init at h
  split at h
  · simp at h
  · cases hd : readLines true (fs.contents p) with
    | error e => rw [hd] at h; simp at h
    | ok dObj =>
      cases hu : readLines false (fs.contents p) with
      | error e => rw [hd, hu] at h; simp at h
      | ok uObj =>
        rw [hd, hu] at h
        have hc : c = ⟨p, dObj, uObj⟩ := by
          injection h with h1
          exact h1.symm
        subst hc
        exact ⟨rfl, rfl⟩

/-- Claim C8: the delimited and the undelimited views carry the same section
names — equal section-name lists immediately after a successful construction,
and the equality is preserved by every successful `merge_section` and
`replace_section` (both apply the same section removals, creations and option
writes to both views). -/
theorem views_section_names_synchronized :
    (∀ (fs : FileSystem) (p : String) (c : Config), Config.init fs p = .ok c →
      c.delimited.sectionNames = c.undelimited.sectionNames)
    ∧ (∀ (c c' : Config) (sec : String) (items : List (String × String)),
        c.delimited.sectionNames = c.undelimited.sectionNames →
        c.merge_section sec items = .ok c' →
        c'.delimited.sectionNames = c'.undelimited.sectionNames)
    ∧ (∀ (c c' : Config) (sec : String) (items : List (String × String)),
        c.delimited.sectionNames = c.undelimited.sectionNames →
        c.replace_section sec items = .ok c' →
        c'.delimited.sectionNames = c'.undelimited.sectionNames) := by
  refine ⟨?_, ?_, ?_⟩
  · intro fs p c h
    obtain ⟨hd, hu⟩ := Config.init_ok_inv fs p c h
    exact readLines_sectionNames_eq (fs.contents p) _ _ hd hu
  · intro c c' sec items heq h
    obtain ⟨h1, h2⟩ := Config.merge_section_names items c c' sec h
    rw [h1, h2, heq]
  · intro c c' sec items heq h
    obtain ⟨h1, h2⟩ := Config.replace_section_names c c' sec items h
    rw [h1, h2, heq]

/-- The filesystem of the C8 witness: every path holds a two-line file with
one section header and one option line. -/
def fsSample : FileSystem :=
  ⟨fun _ => true, fun p => "/abs/" ++ p, fun _ => ["[A]", "x=1"]⟩

/-- The stores of the C8 witness for the mutation parts. -/
def cMergeW : Config := ⟨"p", ⟨[("S", [])]⟩, ⟨[("S", [])]⟩⟩

def cReplaceW : Config :=
  ⟨"q", ⟨[("B", [("y", some "2")])]⟩, ⟨[("B", [("y2", none)])]⟩⟩

/-- Witness for C8: the section-name equality at the store built by a concrete
construction, after a concrete merge, and after a concrete replace. -/
theorem views_section_names_synchronized_witness :
    ((Config.mk "c.ini" ⟨[("A", [("x", some "1")])]⟩
        ⟨[("A", [("x=1", none)])]⟩).delimited.sectionNames =
      (Config.mk "c.ini" ⟨[("A", [("x", some "1")])]⟩
        ⟨[("A", [("x=1", none)])]⟩).undelimited.sectionNames)
    ∧ ((Config.mk "p" ⟨[("S", [("a", some "1")])]⟩
        ⟨[("S", [("a", some "1")])]⟩).delimited.sectionNames =
      (Config.mk "p" ⟨[("S", [("a", some "1")])]⟩
        ⟨[("S", [("a", some "1")])]⟩).undelimited.sectionNames)
    ∧ ((Config.mk "q" ⟨[("B", [("y", some "2")]), ("S", [("a", some "1")])]⟩
        ⟨[("B", [("y2", none)]), ("S", [("a", some "1")])]⟩).delimited.sectionNames =
      (Config.mk "q" ⟨[("B", [("y", some "2")]), ("S", [("a", some "1")])]⟩
        ⟨[("B", [("y2", none)]), ("S", [("a", some "1")])]⟩).undelimited.sectionNames) :=
  ⟨views_section_names_synchronized.1 fsSample "c.ini" _ rfl,
    views_section_names_synchronized.2.1 cMergeW _ "S" [("a", "1")] rfl rfl,
    views_section_names_synchronized.2.2 cReplaceW _ "S" [("a", "1")] rfl rfl⟩

end Bvzconfig
